import Mathlib

/-
Verification of the role-based access-control and dashboard-routing core of
the event_craft Django application (events/decorators.py, events/views.py,
events/models.py), against its natural-language specification.

The embedding is shallow: each guard (decorator or mixin-protected view) is a
pure Lean function on an Identity record mirroring exactly the fields the
source reads from the request user, and each guard result records both the
access decision and whether the guard called logout(request).
-/

namespace EventCraft

/-- Derived access tier of an identity: Admin, Organizer, Participant or
Anonymous (spec section 3). -/
inductive Role where
  | Admin : Role
  | Organizer : Role
  | Participant : Role
  | Anonymous : Role
deriving DecidableEq, Repr

/-- Reason attached to a denial: the three user-facing conditions of the
error taxonomy (spec section 7), distinguished in the source by the message
text passed to messages.error. -/
inductive DenyReason where
  | Unauthenticated : DenyReason
  | NotActivated : DenyReason
  | Forbidden : DenyReason
deriving DecidableEq, Repr

/-- Named redirect target produced by a denial: the login page or the
dashboard dispatcher page, matching redirect arguments in the source. -/
inductive Target where
  | loginPage : Target
  | dashboardPage : Target
deriving DecidableEq, Repr

/-- Outcome of an access check: Allow, or Deny with a reason and a redirect
target. -/
inductive GuardDecision where
  | Allow : GuardDecision
  | Deny : DenyReason → Target → GuardDecision
deriving DecidableEq, Repr

/-- The profile object reachable from a user, carrying an activation flag.
In the events/signals.py iteration every user gets such a UserProfile; the
activation_required decorator reads it through
getattr(request.user, 'profile', None) and so must cope with its absence. -/
structure UserProfile where
  is_activated : Bool
deriving DecidableEq, Repr

/-- The acting user of one request, with exactly the attributes the guards
read: request.user.is_authenticated, request.user.is_superuser, the
CustomUser.is_activated field (events/models.py line 24), the optional
profile object, and the names of the user's groups. -/
structure Identity where
  isAuthenticated : Bool
  isSuperuser : Bool
  is_activated : Bool
  profile : Option UserProfile
  groupNames : List String
deriving DecidableEq, Repr

/-- Result of running a decorator guard: the decision together with whether
the guard called logout(request) (session termination). -/
structure GuardOutcome where
  decision : GuardDecision
  loggedOut : Bool
deriving DecidableEq, Repr

/-- events/decorators.py, activation_required (lines 8-18): if the user is
authenticated and getattr(user, 'profile', None) yields a profile that is
not activated, the guard emits the activation error message, calls
logout(request) and redirects to login; in every other case (unauthenticated
user, absent profile, or activated profile) it calls the wrapped view. It
performs no authentication check and no superuser check of its own. -/
def activation_required (u : Identity) : GuardOutcome :=
  if u.isAuthenticated then
    match u.profile with
    | some p =>
      if !p.is_activated then
        ⟨GuardDecision.Deny DenyReason.NotActivated Target.loginPage, true⟩
      else ⟨GuardDecision.Allow, false⟩
    | none => ⟨GuardDecision.Allow, false⟩
  else ⟨GuardDecision.Allow, false⟩

/-- events/decorators.py, admin_required (lines 21-34): unauthenticated users
are redirected to login with the login message; authenticated users lacking
both the Admin group and the superuser flag are redirected to the dashboard
with the permission message; everyone else reaches the view. No logout is
ever called. -/
def admin_required (u : Identity) : GuardOutcome :=
  if !u.isAuthenticated then
    ⟨GuardDecision.Deny DenyReason.Unauthenticated Target.loginPage, false⟩
  else if !(u.groupNames.contains "Admin") && !u.isSuperuser then
    ⟨GuardDecision.Deny DenyReason.Forbidden Target.dashboardPage, false⟩
  else ⟨GuardDecision.Allow, false⟩

/-- events/decorators.py, organizer_required (lines 37-51): like
admin_required but the group test is any of Admin, Organizer in the user's
group names. -/
def organizer_required (u : Identity) : GuardOutcome :=
  if !u.isAuthenticated then
    ⟨GuardDecision.Deny DenyReason.Unauthenticated Target.loginPage, false⟩
  else if !(["Admin", "Organizer"].any (fun g => u.groupNames.contains g)) && !u.isSuperuser then
    ⟨GuardDecision.Deny DenyReason.Forbidden Target.dashboardPage, false⟩
  else ⟨GuardDecision.Allow, false⟩

/-- events/decorators.py, participant_required (lines 54-63): only the
authentication check; every authenticated user reaches the view. -/
def participant_required (u : Identity) : GuardOutcome :=
  if !u.isAuthenticated then
    ⟨GuardDecision.Deny DenyReason.Unauthenticated Target.loginPage, false⟩
  else ⟨GuardDecision.Allow, false⟩

/-- events/views.py, AdminRequiredMixin.test_func (lines 27-28): Admin group
membership or the superuser flag. -/
def adminRequiredMixin_test (u : Identity) : Bool :=
  u.groupNames.contains "Admin" || u.isSuperuser

/-- events/views.py, OrganizerRequiredMixin.test_func (lines 39-41): any of
Admin, Organizer group membership, or the superuser flag. -/
def organizerRequiredMixin_test (u : Identity) : Bool :=
  ["Admin", "Organizer"].any (fun g => u.groupNames.contains g) || u.isSuperuser

/-- Guard of AdminDashboardView (events/views.py lines 23-32, 242): the base
classes LoginRequiredMixin and UserPassesTestMixin are framework code outside
src. Modelled from the spec (section 4.2 step 1): an unauthenticated request
is denied towards the login page; an authenticated request failing test_func
is denied through the overridden handle_no_permission (views.py 30-32), which
emits the permission message and redirects to the dashboard. -/
def adminRequiredMixin_guard (u : Identity) : GuardDecision :=
  if !u.isAuthenticated then GuardDecision.Deny DenyReason.Unauthenticated Target.loginPage
  else if adminRequiredMixin_test u then GuardDecision.Allow
  else GuardDecision.Deny DenyReason.Forbidden Target.dashboardPage

/-- Guard of OrganizerDashboardView (events/views.py lines 35-45, 292):
same framework modelling as adminRequiredMixin_guard, with
OrganizerRequiredMixin.test_func. -/
def organizerRequiredMixin_guard (u : Identity) : GuardDecision :=
  if !u.isAuthenticated then GuardDecision.Deny DenyReason.Unauthenticated Target.loginPage
  else if organizerRequiredMixin_test u then GuardDecision.Allow
  else GuardDecision.Deny DenyReason.Forbidden Target.dashboardPage

/-- Guard of ParticipantDashboardView (events/views.py lines 48-50, 328):
ParticipantRequiredMixin is LoginRequiredMixin alone, so only the
authentication check applies. -/
def participantRequiredMixin_guard (u : Identity) : GuardDecision :=
  if !u.isAuthenticated then GuardDecision.Deny DenyReason.Unauthenticated Target.loginPage
  else GuardDecision.Allow

/-- The three role-specific dashboards a dispatch can delegate to. -/
inductive DashboardTarget where
  | AdminDashboard : DashboardTarget
  | OrganizerDashboard : DashboardTarget
  | ParticipantDashboard : DashboardTarget
deriving DecidableEq, Repr

/-- Outcome of the dashboard dispatcher: a denial, or delegation to one of
the three role-specific dashboard views. -/
inductive DispatchOutcome where
  | deny : DenyReason → Target → DispatchOutcome
  | delegate : DashboardTarget → DispatchOutcome
deriving DecidableEq, Repr

/-- Dispatcher result: the outcome together with whether logout(request) was
called anywhere on the path. -/
structure DispatchResult where
  outcome : DispatchOutcome
  loggedOut : Bool
deriving DecidableEq, Repr

/-- events/views.py, DashboardView (lines 221-239): LoginRequiredMixin first
denies unauthenticated requests towards the login page (framework base class,
modelled from the spec section 4.2 step 1); then get() denies users that are
neither activated nor superuser towards the login page; then it delegates by
role: superuser or Admin group to AdminDashboardView, else Organizer group to
OrganizerDashboardView, else ParticipantDashboardView. get() contains no
logout call, so loggedOut is false on every path. -/
def dashboardView_get (u : Identity) : DispatchResult :=
  if !u.isAuthenticated then
    ⟨DispatchOutcome.deny DenyReason.Unauthenticated Target.loginPage, false⟩
  else if !u.is_activated && !u.isSuperuser then
    ⟨DispatchOutcome.deny DenyReason.NotActivated Target.loginPage, false⟩
  else if u.isSuperuser || u.groupNames.contains "Admin" then
    ⟨DispatchOutcome.delegate DashboardTarget.AdminDashboard, false⟩
  else if u.groupNames.contains "Organizer" then
    ⟨DispatchOutcome.delegate DashboardTarget.OrganizerDashboard, false⟩
  else ⟨DispatchOutcome.delegate DashboardTarget.ParticipantDashboard, false⟩

/-- Role classification as realized by the code: every guard in the source
evaluates the authentication check before any group or superuser test (the
decorators test is_authenticated first; the mixin-based views put
LoginRequiredMixin before the test), so an unauthenticated identity is
anonymous; for authenticated identities the precedence follows the branching
of DashboardView.get (events/views.py lines 234-239): superuser or Admin
group, then Organizer group, then Participant. -/
def classify (u : Identity) : Role :=
  if !u.isAuthenticated then Role.Anonymous
  else if u.isSuperuser || u.groupNames.contains "Admin" then Role.Admin
  else if u.groupNames.contains "Organizer" then Role.Organizer
  else Role.Participant

/-- Classifier following the literal precedence order stated in the spec
(section 3) and in claim C1: superuser or Admin group first, Organizer group
second, authentication only third. Stated for comparison with classify, which
is the order the code realizes. -/
def classifySpecOrder (u : Identity) : Role :=
  if u.isSuperuser || u.groupNames.contains "Admin" then Role.Admin
  else if u.groupNames.contains "Organizer" then Role.Organizer
  else if u.isAuthenticated then Role.Participant
  else Role.Anonymous

/-- The delegation table of the dispatcher (spec section 4.3 step 2): Admin
to AdminDashboard, Organizer to OrganizerDashboard, anything else to
ParticipantDashboard. -/
def roleDashboard : Role → DashboardTarget
  | Role.Admin => DashboardTarget.AdminDashboard
  | Role.Organizer => DashboardTarget.OrganizerDashboard
  | _ => DashboardTarget.ParticipantDashboard

/-- The guard each role-specific dashboard enforces on direct navigation. -/
def mixin_guard : DashboardTarget → Identity → GuardDecision
  | DashboardTarget.AdminDashboard => adminRequiredMixin_guard
  | DashboardTarget.OrganizerDashboard => organizerRequiredMixin_guard
  | DashboardTarget.ParticipantDashboard => participantRequiredMixin_guard

/-- C1 counterexample: at the identity with isAuthenticated false and
isSuperuser true, the precedence stated by the claim (superuser first) yields
Admin, but the classifier realized by the code returns Anonymous, because
every guard in the source checks authentication before any superuser or group
test; so the claim as stated is false at this input. -/
theorem c1_counterexample :
    classifySpecOrder ⟨false, true, true, none, []⟩ = Role.Admin ∧
    classify ⟨false, true, true, none, []⟩ = Role.Anonymous ∧
    classify ⟨false, true, true, none, []⟩ ≠ Role.Admin := by
  refine ⟨rfl, rfl, ?_⟩
  decide

/-- C1 amended: the classifier follows the stated precedence on every
authenticated identity (in particular every authenticated superuser is Admin
regardless of groupNames), and every unauthenticated identity is classified
Anonymous regardless of its other flags. -/
theorem c1_amended_precedence (u : Identity) :
    (u.isAuthenticated = true → classify u = classifySpecOrder u) ∧
    (u.isAuthenticated = true → u.isSuperuser = true → classify u = Role.Admin) ∧
    (u.isAuthenticated = false → classify u = Role.Anonymous) := by
  refine ⟨?_, ?_, ?_⟩
  · intro h
    simp [classify, classifySpecOrder, h]
  · intro h hs
    simp [classify, h, hs]
  · intro h
    simp [classify, h]

/-- C1 amended witness: at the authenticated superuser with no groups the
classifier agrees with the stated precedence and returns Admin. -/
theorem c1_amended_precedence_witness :
    classify ⟨true, true, true, none, []⟩ =
      classifySpecOrder ⟨true, true, true, none, []⟩ ∧
    classify ⟨true, true, true, none, []⟩ = Role.Admin :=
  ⟨(c1_amended_precedence ⟨true, true, true, none, []⟩).1 rfl,
   (c1_amended_precedence ⟨true, true, true, none, []⟩).2.1 rfl rfl⟩

/-- C2: every unauthenticated identity classifies as Anonymous, and every
guard in the source that implements an access policy (the three role
decorators, the three mixin guards, and the dashboard dispatcher guard)
denies it with the Unauthenticated reason and the login redirect, before any
activation or role check, and without any logout. -/
theorem c2_unauthenticated_denied (u : Identity)
    (h : u.isAuthenticated = false) :
    classify u = Role.Anonymous ∧
    admin_required u =
      ⟨GuardDecision.Deny DenyReason.Unauthenticated Target.loginPage, false⟩ ∧
    organizer_required u =
      ⟨GuardDecision.Deny DenyReason.Unauthenticated Target.loginPage, false⟩ ∧
    participant_required u =
      ⟨GuardDecision.Deny DenyReason.Unauthenticated Target.loginPage, false⟩ ∧
    adminRequiredMixin_guard u =
      GuardDecision.Deny DenyReason.Unauthenticated Target.loginPage ∧
    organizerRequiredMixin_guard u =
      GuardDecision.Deny DenyReason.Unauthenticated Target.loginPage ∧
    participantRequiredMixin_guard u =
      GuardDecision.Deny DenyReason.Unauthenticated Target.loginPage ∧
    dashboardView_get u =
      ⟨DispatchOutcome.deny DenyReason.Unauthenticated Target.loginPage, false⟩ := by
  simp [classify, admin_required, organizer_required, participant_required,
    adminRequiredMixin_guard, organizerRequiredMixin_guard,
    participantRequiredMixin_guard, dashboardView_get, h]

/-- C2 witness: the unauthenticated identity that is superuser, activated and
in the Admin group is still classified Anonymous and denied by every policy
guard with the Unauthenticated reason and the login redirect. -/
theorem c2_unauthenticated_denied_witness :
    classify ⟨false, true, true, none, ["Admin"]⟩ = Role.Anonymous ∧
    admin_required ⟨false, true, true, none, ["Admin"]⟩ =
      ⟨GuardDecision.Deny DenyReason.Unauthenticated Target.loginPage, false⟩ ∧
    organizer_required ⟨false, true, true, none, ["Admin"]⟩ =
      ⟨GuardDecision.Deny DenyReason.Unauthenticated Target.loginPage, false⟩ ∧
    participant_required ⟨false, true, true, none, ["Admin"]⟩ =
      ⟨GuardDecision.Deny DenyReason.Unauthenticated Target.loginPage, false⟩ ∧
    adminRequiredMixin_guard ⟨false, true, true, none, ["Admin"]⟩ =
      GuardDecision.Deny DenyReason.Unauthenticated Target.loginPage ∧
    organizerRequiredMixin_guard ⟨false, true, true, none, ["Admin"]⟩ =
      GuardDecision.Deny DenyReason.Unauthenticated Target.loginPage ∧
    participantRequiredMixin_guard ⟨false, true, true, none, ["Admin"]⟩ =
      GuardDecision.Deny DenyReason.Unauthenticated Target.loginPage ∧
    dashboardView_get ⟨false, true, true, none, ["Admin"]⟩ =
      ⟨DispatchOutcome.deny DenyReason.Unauthenticated Target.loginPage, false⟩ :=
  c2_unauthenticated_denied ⟨false, true, true, none, ["Admin"]⟩ rfl

/-- C3 counterexample: the authenticated, non-superuser, non-activated
identity of spec Scenario A is denied by the dashboard guard with reason
NotActivated and login redirect, but its session is NOT terminated: the
loggedOut component is false, because DashboardView.get contains no logout
call; so the claimed forced-logout side effect fails on this guard. -/
theorem c3_counterexample :
    (dashboardView_get ⟨true, false, false, some ⟨false⟩, []⟩).outcome =
      DispatchOutcome.deny DenyReason.NotActivated Target.loginPage ∧
    (dashboardView_get ⟨true, false, false, some ⟨false⟩, []⟩).loggedOut = false := by
  exact ⟨rfl, rfl⟩

/-- C3 amended: an authenticated, non-superuser identity with the activation
flag false is denied with reason NotActivated and login redirect by both
activation guards, but only the activation_required decorator terminates the
session, and only when the profile carrying the flag is present; the
dashboard guard denies without terminating the session. -/
theorem c3_amended_not_activated (u : Identity) (p : UserProfile)
    (hauth : u.isAuthenticated = true) (hsu : u.isSuperuser = false)
    (hact : u.is_activated = false) (hp : u.profile = some p)
    (hpa : p.is_activated = false) :
    activation_required u =
      ⟨GuardDecision.Deny DenyReason.NotActivated Target.loginPage, true⟩ ∧
    dashboardView_get u =
      ⟨DispatchOutcome.deny DenyReason.NotActivated Target.loginPage, false⟩ := by
  constructor
  · simp [activation_required, hauth, hp, hpa]
  · simp [dashboardView_get, hauth, hsu, hact]

/-- C3 amended witness: Scenario A with a present, non-activated profile. -/
theorem c3_amended_not_activated_witness :
    activation_required ⟨true, false, false, some ⟨false⟩, []⟩ =
      ⟨GuardDecision.Deny DenyReason.NotActivated Target.loginPage, true⟩ ∧
    dashboardView_get ⟨true, false, false, some ⟨false⟩, []⟩ =
      ⟨DispatchOutcome.deny DenyReason.NotActivated Target.loginPage, false⟩ :=
  c3_amended_not_activated ⟨true, false, false, some ⟨false⟩, []⟩ ⟨false⟩
    rfl rfl rfl rfl rfl

/-- C4 counterexample: an authenticated superuser whose profile is present
and not activated IS denied with reason NotActivated (and logged out) by the
activation_required decorator, which performs no superuser test; so the
claimed superuser exemption does not hold in every guard variant. -/
theorem c4_counterexample :
    activation_required ⟨true, true, false, some ⟨false⟩, []⟩ =
      ⟨GuardDecision.Deny DenyReason.NotActivated Target.loginPage, true⟩ := by
  rfl

/-- C4 amended: the superuser exemption from the activation check holds in
the dashboard guard, which delegates an authenticated superuser straight to
the admin dashboard whatever its activation flag; but the activation_required
decorator exempts nobody: it denies any authenticated identity whose present
profile is not activated, superuser included (the counterexample), and passes
a superuser only when the profile is absent or activated. -/
theorem c4_amended_superuser_activation (u : Identity)
    (hauth : u.isAuthenticated = true) :
    (u.isSuperuser = true →
      dashboardView_get u =
        ⟨DispatchOutcome.delegate DashboardTarget.AdminDashboard, false⟩) ∧
    (∀ p, u.profile = some p → p.is_activated = false →
      activation_required u =
        ⟨GuardDecision.Deny DenyReason.NotActivated Target.loginPage, true⟩) ∧
    (u.profile = none → activation_required u = ⟨GuardDecision.Allow, false⟩) := by
  refine ⟨?_, ?_, ?_⟩
  · intro hs
    simp [dashboardView_get, hauth, hs]
  · intro p hp hpa
    simp [activation_required, hauth, hp, hpa]
  · intro hp
    simp [activation_required, hauth, hp]

/-- C4 amended witness: the authenticated non-activated superuser with a
non-activated profile is delegated to the admin dashboard by the dashboard
guard yet denied and logged out by the activation_required decorator. -/
theorem c4_amended_superuser_activation_witness :
    dashboardView_get ⟨true, true, false, some ⟨false⟩, []⟩ =
      ⟨DispatchOutcome.delegate DashboardTarget.AdminDashboard, false⟩ ∧
    activation_required ⟨true, true, false, some ⟨false⟩, []⟩ =
      ⟨GuardDecision.Deny DenyReason.NotActivated Target.loginPage, true⟩ :=
  ⟨(c4_amended_superuser_activation ⟨true, true, false, some ⟨false⟩, []⟩ rfl).1 rfl,
   (c4_amended_superuser_activation ⟨true, true, false, some ⟨false⟩, []⟩ rfl).2.1
     ⟨false⟩ rfl rfl⟩

/-- C5: every authenticated, activated, non-superuser identity whose
classified role is outside a guard's required roles is denied with reason
Forbidden and redirected to the dashboard page: by admin_required and the
admin mixin when the role is not Admin, and by organizer_required and the
organizer mixin when the role is neither Admin nor Organizer. These are all
the guards in the source with a non-empty required-role set. -/
theorem c5_insufficient_permission (u : Identity)
    (hauth : u.isAuthenticated = true) (hact : u.is_activated = true)
    (hsu : u.isSuperuser = false) :
    (classify u ≠ Role.Admin →
      admin_required u =
        ⟨GuardDecision.Deny DenyReason.Forbidden Target.dashboardPage, false⟩ ∧
      adminRequiredMixin_guard u =
        GuardDecision.Deny DenyReason.Forbidden Target.dashboardPage) ∧
    (classify u ≠ Role.Admin → classify u ≠ Role.Organizer →
      organizer_required u =
        ⟨GuardDecision.Deny DenyReason.Forbidden Target.dashboardPage, false⟩ ∧
      organizerRequiredMixin_guard u =
        GuardDecision.Deny DenyReason.Forbidden Target.dashboardPage) := by
  by_cases hA : "Admin" ∈ u.groupNames <;>
  by_cases hO : "Organizer" ∈ u.groupNames <;>
  simp [classify, admin_required, organizer_required, adminRequiredMixin_guard,
    organizerRequiredMixin_guard, adminRequiredMixin_test,
    organizerRequiredMixin_test, hauth, hsu, hA, hO]

/-- C5 witness: Scenario B, an authenticated, activated identity whose only
group is Organizer, checked against the Admin-requiring guards, is denied
with Forbidden and redirected to the dashboard page. -/
theorem c5_insufficient_permission_witness :
    admin_required ⟨true, false, true, none, ["Organizer"]⟩ =
      ⟨GuardDecision.Deny DenyReason.Forbidden Target.dashboardPage, false⟩ ∧
    adminRequiredMixin_guard ⟨true, false, true, none, ["Organizer"]⟩ =
      GuardDecision.Deny DenyReason.Forbidden Target.dashboardPage :=
  (c5_insufficient_permission ⟨true, false, true, none, ["Organizer"]⟩
    rfl rfl rfl).1 (by decide)

/-- C6: an authenticated superuser is allowed by every role guard regardless
of its groups, so no guard ever issues it a Forbidden denial; the override
never applies to the authentication check, since an unauthenticated identity
is denied Unauthenticated by every policy guard even with the superuser flag
set; and the activation guard never produces a Forbidden denial at all. -/
theorem c6_superuser_never_forbidden (u : Identity) (hsu : u.isSuperuser = true) :
    (u.isAuthenticated = true →
      admin_required u = ⟨GuardDecision.Allow, false⟩ ∧
      organizer_required u = ⟨GuardDecision.Allow, false⟩ ∧
      participant_required u = ⟨GuardDecision.Allow, false⟩ ∧
      adminRequiredMixin_guard u = GuardDecision.Allow ∧
      organizerRequiredMixin_guard u = GuardDecision.Allow ∧
      participantRequiredMixin_guard u = GuardDecision.Allow) ∧
    (u.isAuthenticated = false →
      admin_required u =
        ⟨GuardDecision.Deny DenyReason.Unauthenticated Target.loginPage, false⟩ ∧
      organizer_required u =
        ⟨GuardDecision.Deny DenyReason.Unauthenticated Target.loginPage, false⟩ ∧
      participant_required u =
        ⟨GuardDecision.Deny DenyReason.Unauthenticated Target.loginPage, false⟩ ∧
      adminRequiredMixin_guard u =
        GuardDecision.Deny DenyReason.Unauthenticated Target.loginPage ∧
      organizerRequiredMixin_guard u =
        GuardDecision.Deny DenyReason.Unauthenticated Target.loginPage ∧
      participantRequiredMixin_guard u =
        GuardDecision.Deny DenyReason.Unauthenticated Target.loginPage) ∧
    (∀ t, (activation_required u).decision ≠
      GuardDecision.Deny DenyReason.Forbidden t) := by
  refine ⟨?_, ?_, ?_⟩
  · intro h
    simp [admin_required, organizer_required, participant_required,
      adminRequiredMixin_guard, organizerRequiredMixin_guard,
      participantRequiredMixin_guard, adminRequiredMixin_test,
      organizerRequiredMixin_test, h, hsu]
  · intro h
    simp [admin_required, organizer_required, participant_required,
      adminRequiredMixin_guard, organizerRequiredMixin_guard,
      participantRequiredMixin_guard, h]
  · intro t
    cases ha : u.isAuthenticated
    · simp [activation_required, ha]
    · cases hp : u.profile with
      | none => simp [activation_required, ha, hp]
      | some p =>
        cases hpa : p.is_activated <;>
        simp [activation_required, ha, hp, hpa]

/-- C6 witness: the authenticated superuser with no groups is allowed by all
six role guards. -/
theorem c6_superuser_never_forbidden_witness :
    admin_required ⟨true, true, false, none, []⟩ = ⟨GuardDecision.Allow, false⟩ ∧
    organizer_required ⟨true, true, false, none, []⟩ = ⟨GuardDecision.Allow, false⟩ ∧
    participant_required ⟨true, true, false, none, []⟩ = ⟨GuardDecision.Allow, false⟩ ∧
    adminRequiredMixin_guard ⟨true, true, false, none, []⟩ = GuardDecision.Allow ∧
    organizerRequiredMixin_guard ⟨true, true, false, none, []⟩ = GuardDecision.Allow ∧
    participantRequiredMixin_guard ⟨true, true, false, none, []⟩ = GuardDecision.Allow :=
  (c6_superuser_never_forbidden ⟨true, true, false, none, []⟩ rfl).1 rfl

/-- C7: for every identity the dashboard guard lets through (authenticated
and either activated or superuser, which is exactly the non-denying case of
DashboardView), the dispatcher delegates to the dashboard of the classified
role: Admin to AdminDashboard, Organizer to OrganizerDashboard, anything else
to ParticipantDashboard. -/
theorem c7_dispatch_by_role (u : Identity) (hauth : u.isAuthenticated = true)
    (hok : u.is_activated = true ∨ u.isSuperuser = true) :
    (dashboardView_get u).outcome =
      DispatchOutcome.delegate (roleDashboard (classify u)) := by
  cases hs : u.isSuperuser <;>
  cases hA : u.groupNames.contains "Admin" <;>
  cases hO : u.groupNames.contains "Organizer" <;>
  rcases hok with hok | hok <;>
  simp_all [dashboardView_get, classify, roleDashboard]

/-- C7 witness: Scenario D, the authenticated, activated superuser with no
groups is delegated to the AdminDashboard. -/
theorem c7_dispatch_by_role_witness :
    (dashboardView_get ⟨true, true, true, none, []⟩).outcome =
      DispatchOutcome.delegate (roleDashboard (classify ⟨true, true, true, none, []⟩)) ∧
    roleDashboard (classify ⟨true, true, true, none, []⟩) =
      DashboardTarget.AdminDashboard :=
  ⟨c7_dispatch_by_role ⟨true, true, true, none, []⟩ rfl (Or.inr rfl), by decide⟩

/-- C8: on direct navigation each dashboard enforces its own policy exactly:
the admin mixin allows precisely the identities classified Admin, the
organizer mixin precisely those classified Admin or Organizer, the
participant mixin precisely the authenticated ones; and the dispatcher never
delegates an identity to a dashboard whose own guard would deny it, so both
paths enforce the same policy. -/
theorem c8_double_guarding (u : Identity) :
    (adminRequiredMixin_guard u = GuardDecision.Allow ↔ classify u = Role.Admin) ∧
    (organizerRequiredMixin_guard u = GuardDecision.Allow ↔
      (classify u = Role.Admin ∨ classify u = Role.Organizer)) ∧
    (participantRequiredMixin_guard u = GuardDecision.Allow ↔
      u.isAuthenticated = true) ∧
    (∀ d, (dashboardView_get u).outcome = DispatchOutcome.delegate d →
      mixin_guard d u = GuardDecision.Allow) := by
  cases ha : u.isAuthenticated <;>
  cases hs : u.isSuperuser <;>
  by_cases hA : "Admin" ∈ u.groupNames <;>
  by_cases hO : "Organizer" ∈ u.groupNames <;>
  cases hact : u.is_activated <;>
  simp [adminRequiredMixin_guard, organizerRequiredMixin_guard,
    participantRequiredMixin_guard, adminRequiredMixin_test,
    organizerRequiredMixin_test, classify, dashboardView_get, mixin_guard,
    ha, hs, hA, hO, hact]

/-- C8 witness: Scenario E, the authenticated activated identity with only
the Organizer group satisfies the organizer-mixin characterization, and the
dashboard the dispatcher delegates it to allows it. -/
theorem c8_double_guarding_witness :
    (organizerRequiredMixin_guard ⟨true, false, true, none, ["Organizer"]⟩ =
        GuardDecision.Allow ↔
      (classify ⟨true, false, true, none, ["Organizer"]⟩ = Role.Admin ∨
       classify ⟨true, false, true, none, ["Organizer"]⟩ = Role.Organizer)) ∧
    mixin_guard DashboardTarget.OrganizerDashboard
      ⟨true, false, true, none, ["Organizer"]⟩ = GuardDecision.Allow :=
  ⟨(c8_double_guarding ⟨true, false, true, none, ["Organizer"]⟩).2.1,
   (c8_double_guarding ⟨true, false, true, none, ["Organizer"]⟩).2.2.2
     DashboardTarget.OrganizerDashboard (by decide)⟩

/-- C9: for every unauthenticated identity, the activation guard taken by
itself produces no denial and no logout: it executes the wrapped operation
directly, enforcing no authentication requirement of its own. -/
theorem c9_activation_skips_unauthenticated (u : Identity)
    (h : u.isAuthenticated = false) :
    activation_required u = ⟨GuardDecision.Allow, false⟩ := by
  simp [activation_required, h]

/-- C9 witness: the unauthenticated identity with no flags and no groups is
passed through by activation_required. -/
theorem c9_activation_skips_unauthenticated_witness :
    activation_required ⟨false, false, false, none, []⟩ =
      ⟨GuardDecision.Allow, false⟩ :=
  c9_activation_skips_unauthenticated ⟨false, false, false, none, []⟩ rfl

/-- C10: for every authenticated identity whose profile is absent, the
activation guard permits execution without denial and without logout: a
missing activation-flag carrier is treated as if the account were
activated. -/
theorem c10_missing_profile_allows (u : Identity)
    (hauth : u.isAuthenticated = true) (hp : u.profile = none) :
    activation_required u = ⟨GuardDecision.Allow, false⟩ := by
  simp [activation_required, hauth, hp]

/-- C10 witness: an authenticated identity with no profile object is passed
through by activation_required. -/
theorem c10_missing_profile_allows_witness :
    activation_required ⟨true, false, false, none, []⟩ =
      ⟨GuardDecision.Allow, false⟩ :=
  c10_missing_profile_allows ⟨true, false, false, none, []⟩ rfl rfl

end EventCraft
